import Mathlib

/-!
Shallow embedding of `src/web/src/components/UserManagementComponent.vue`
(the "User Directory Manager" component of Yuxi-Know).

The component's reactive record `userManagement` becomes `ViewState`; the
store facade `userStore` becomes `Facade`, whose asynchronous operations are
modelled as `Except`-valued results (the `String` of the error is the
error's `message`).  Each event handler of the component becomes a pure
transition function returning the new `ViewState` together with the trace of
facade calls it performed and the notifications it fired.  The delete
handler's result additionally records whether an uncaught exception escaped
the handler and which confirmation prompt (if any) was displayed: the
source destructures `modal` out of ant-design-vue's `notification` export,
which has no such member, so `modal.confirm` throws a TypeError before any
dialog for every non-self target.
-/

namespace UserManagement

/-- A user row as rendered in the table (`UserRecord` of the spec). -/
structure UserRecord where
  id : Nat
  username : String
  role : String
  created_at : Option String
  last_login : Option String
  deriving Repr, DecidableEq

/-- The `userManagement.form` sub-record. -/
structure FormState where
  username : String
  password : String
  confirmPassword : String
  role : String
  deriving Repr, DecidableEq

/-- The reactive `userManagement` record declared at the top of the script. -/
structure ViewState where
  loading : Bool
  users : List UserRecord
  error : Option String
  modalVisible : Bool
  modalTitle : String
  editMode : Bool
  editUserId : Option Nat
  form : FormState
  displayPasswordFields : Bool
  deriving Repr, DecidableEq

/-- Payload of `userStore.createUser` as built in `handleUserFormSubmit`. -/
structure CreatePayload where
  username : String
  password : String
  role : String
  deriving Repr, DecidableEq

/-- Payload of `userStore.updateUser` as built in `handleUserFormSubmit`:
the optional `password` key is present iff the source added it. -/
structure UpdatePayload where
  username : String
  role : String
  password : Option String
  deriving Repr, DecidableEq

/-- One facade (network) call performed by a handler. -/
inductive Call where
  | getUsers
  | createUser (payload : CreatePayload)
  | updateUser (id : Option Nat) (payload : UpdatePayload)
  | deleteUser (id : Nat)
  deriving Repr, DecidableEq

/-- One notification fired by a handler (`notification.error` /
`notification.success`, with or without a `description`). -/
inductive Notice where
  | err (message : String)
  | success (message : String)
  | errWithDesc (message description : String)
  deriving Repr, DecidableEq

/-- The `userStore` facade: ambient identity plus the four operations, each
returning either a result or an error message. -/
structure Facade where
  userId : Nat
  userRole : String
  getUsers : Except String (List UserRecord)
  createUser : CreatePayload → Except String Unit
  updateUser : Option Nat → UpdatePayload → Except String Unit
  deleteUser : Nat → Except String Unit

/-- Result of running an event handler: the final state, the facade calls
performed (in order) and the notifications fired (in order). -/
structure HandlerResult where
  state : ViewState
  calls : List Call
  notices : List Notice
  deriving Repr, DecidableEq

/-- Result of `confirmDeleteUser`: besides state, calls and notices it
records the confirmation prompt shown to the user (`none` when no dialog
was opened) and whether an uncaught exception escaped the handler. -/
structure DeleteResult where
  state : ViewState
  calls : List Call
  notices : List Notice
  prompt : Option String
  threw : Bool
  deriving Repr, DecidableEq

/- The literal user-facing strings of the component. -/

def usernameRequiredMsg : String := "用户名不能为空"

def passwordRequiredMsg : String := "密码不能为空"

def passwordMismatchMsg : String := "两次输入的密码不一致"

def updateSuccessMsg : String := "用户更新成功"

def createSuccessMsg : String := "用户创建成功"

def opFailMsg : String := "操作失败"

def fetchUsersFailMsg : String := "获取用户列表失败"

def selfDeleteMsg : String := "不能删除自己的账户"

def deleteSuccessMsg : String := "用户删除成功"

def deleteFailMsg : String := "删除失败"

def retryLaterMsg : String := "请稍后重试"

/-- `error.message || '请稍后重试'`: JS falls back when the message is empty. -/
def fallbackDesc (msg : String) : String :=
  if msg = "" then retryLaterMsg else msg

/-- Leading and trailing whitespace stripped from a character list. -/
def trimChars (cs : List Char) : List Char :=
  ((cs.dropWhile Char.isWhitespace).reverse.dropWhile Char.isWhitespace).reverse

/-- JS `String.prototype.trim`: the string without leading/trailing
whitespace. -/
def jsTrim (s : String) : String :=
  String.mk (trimChars s.data)

/-- State of the component right after `userManagement.loading = true`, the
point at which `fetchUsers` awaits the facade's list operation. -/
def fetchUsersPending (s : ViewState) : ViewState :=
  { s with loading := true }

/-- `fetchUsers`: sets `loading`, awaits `userStore.getUsers()`; on success
stores the users and clears `error`, on failure sets the fixed error
message; the `finally` clears `loading`.  All failures are caught
internally, so the function is total (never propagates to its caller). -/
def fetchUsers (env : Facade) (s : ViewState) : ViewState × List Call :=
  let sp := fetchUsersPending s
  match env.getUsers with
  | Except.ok users =>
      ({ sp with users := users, error := none, loading := false }, [Call.getUsers])
  | Except.error _ =>
      ({ sp with error := some fetchUsersFailMsg, loading := false }, [Call.getUsers])

/-- `onMounted(() => { fetchUsers(); })`. -/
def onMountedHandler (env : Facade) (s : ViewState) : ViewState × List Call :=
  fetchUsers env s

/-- `showAddUserModal`. -/
def showAddUserModal (s : ViewState) : ViewState :=
  { s with
    modalTitle := "添加用户"
    editMode := false
    editUserId := none
    form := { username := "", password := "", confirmPassword := "", role := "user" }
    displayPasswordFields := true
    modalVisible := true }

/-- `showEditUserModal(user)`. -/
def showEditUserModal (user : UserRecord) (s : ViewState) : ViewState :=
  { s with
    modalTitle := "编辑用户"
    editMode := true
    editUserId := some user.id
    form := { username := user.username, password := "", confirmPassword := "", role := user.role }
    displayPasswordFields := false
    modalVisible := true }

/-- The `watch` on `userManagement.displayPasswordFields`: when the new
value is `false`, both password inputs are cleared. -/
def watchDisplayPasswordFields (newVal : Bool) (s : ViewState) : ViewState :=
  let s1 := { s with displayPasswordFields := newVal }
  if newVal = false then
    { s1 with form := { s1.form with password := "", confirmPassword := "" } }
  else s1

/-- The `updateData` object built in the edit branch of
`handleUserFormSubmit`: `{username: trim, role}` plus `password` only when
`displayPasswordFields && form.password` (non-empty string is truthy). -/
def updateDataOf (s : ViewState) : UpdatePayload :=
  { username := jsTrim s.form.username
    role := s.form.role
    password :=
      if s.displayPasswordFields = true ∧ s.form.password ≠ "" then
        some s.form.password
      else none }

/-- The object passed to `userStore.createUser` in the add branch. -/
def createDataOf (s : ViewState) : CreatePayload :=
  { username := jsTrim s.form.username
    password := s.form.password
    role := s.form.role }

/-- `handleUserFormSubmit`: validation with early returns, then
create/update according to `editMode`, success notification, refetch and
modal close on success, error notification on failure.  The whole body sits
in a `try` whose `finally` clears `loading`, and in JS the `finally` also
runs on the early validation `return`s, so every exit — including a
validation failure — ends with `loading = false`. -/
def handleUserFormSubmit (env : Facade) (s : ViewState) : HandlerResult :=
  if jsTrim s.form.username = "" then
    { state := { s with loading := false }, calls := [],
      notices := [Notice.err usernameRequiredMsg] }
  else if s.displayPasswordFields = true ∧ s.form.password = "" then
    { state := { s with loading := false }, calls := [],
      notices := [Notice.err passwordRequiredMsg] }
  else if s.displayPasswordFields = true ∧ s.form.password ≠ s.form.confirmPassword then
    { state := { s with loading := false }, calls := [],
      notices := [Notice.err passwordMismatchMsg] }
  else
    let s1 := { s with loading := true }
    if s.editMode = true then
      let updateData := updateDataOf s
      match env.updateUser s.editUserId updateData with
      | Except.ok _ =>
          let fr := fetchUsers env s1
          { state := { fr.1 with modalVisible := false, loading := false }
            calls := Call.updateUser s.editUserId updateData :: fr.2
            notices := [Notice.success updateSuccessMsg] }
      | Except.error msg =>
          { state := { s1 with loading := false }
            calls := [Call.updateUser s.editUserId updateData]
            notices := [Notice.errWithDesc opFailMsg (fallbackDesc msg)] }
    else
      let createData := createDataOf s
      match env.createUser createData with
      | Except.ok _ =>
          let fr := fetchUsers env s1
          { state := { fr.1 with modalVisible := false, loading := false }
            calls := Call.createUser createData :: fr.2
            notices := [Notice.success createSuccessMsg] }
      | Except.error msg =>
          { state := { s1 with loading := false }
            calls := [Call.createUser createData]
            notices := [Notice.errWithDesc opFailMsg (fallbackDesc msg)] }

/-- The content the delete dialog's template literal would interpolate the
target's username into.  In the program this expression is dead: the call
that would receive it throws before its arguments are evaluated. -/
def deleteConfirmPrompt (user : UserRecord) : String :=
  "确定要删除用户 \"" ++ user.username ++ "\" 吗？此操作不可撤销。"

/-- `confirmDeleteUser(user)`: the client-side self-delete guard rejects
self targets with the fixed error notice and returns.  For every other
target the handler executes `const { modal } = notification;` — the
ant-design-vue `notification` export has no `modal` member, so `modal` is
`undefined` and the member access `modal.confirm` throws a TypeError before
the dialog options (title, interpolated content, `onOk`) are even
evaluated: no confirmation dialog is shown, no facade call is made, no
notification fires, and the exception escapes the handler (there is no
`try` at this level; the `try` of the source sits inside the unreachable
`onOk`). -/
def confirmDeleteUser (env : Facade) (user : UserRecord) (s : ViewState) :
    DeleteResult :=
  if user.id = env.userId then
    { state := s, calls := [], notices := [Notice.err selfDeleteMsg],
      prompt := none, threw := false }
  else
    { state := s, calls := [], notices := [], prompt := none, threw := true }

/-- The `:disabled` binding of the delete button:
`record.id === userStore.userId || (record.role === 'superadmin' && userStore.userRole !== 'superadmin')`. -/
def deleteActionDisabled (env : Facade) (record : UserRecord) : Bool :=
  record.id == env.userId || (record.role == "superadmin" && env.userRole != "superadmin")

/-- `getRoleLabel` (the JS `switch` on the role string). -/
def getRoleLabel (role : String) : String :=
  if role = "superadmin" then "超级管理员"
  else if role = "admin" then "管理员"
  else if role = "user" then "普通用户"
  else role

/-- `getRoleColor`. -/
def getRoleColor (role : String) : String :=
  if role = "superadmin" then "red"
  else if role = "admin" then "blue"
  else if role = "user" then "green"
  else "default"

/-- Invariant of the spec: hidden password section implies empty password
fields. -/
def pwFieldsInvariant (s : ViewState) : Prop :=
  s.displayPasswordFields = false → s.form.password = "" ∧ s.form.confirmPassword = ""

instance (s : ViewState) : Decidable (pwFieldsInvariant s) := by
  unfold pwFieldsInvariant
  infer_instance

/- Concrete sample data used by the witnesses. -/

def sampleUsers : List UserRecord :=
  [{ id := 1, username := "root", role := "superadmin", created_at := none, last_login := none },
   { id := 2, username := "alice", role := "user", created_at := none, last_login := none }]

def initialState : ViewState :=
  { loading := false
    users := []
    error := none
    modalVisible := false
    modalTitle := "添加用户"
    editMode := false
    editUserId := none
    form := { username := "", password := "", confirmPassword := "", role := "user" }
    displayPasswordFields := true }

def aliceAddState : ViewState :=
  { initialState with
    modalVisible := true
    form := { username := "alice", password := "p1", confirmPassword := "p1", role := "user" } }

def bobEditState : ViewState :=
  { initialState with
    modalVisible := true
    editMode := true
    editUserId := some 3
    form := { username := "bob", password := "", confirmPassword := "", role := "admin" }
    displayPasswordFields := false }

def okFacade : Facade :=
  { userId := 1
    userRole := "superadmin"
    getUsers := Except.ok sampleUsers
    createUser := fun _ => Except.ok ()
    updateUser := fun _ _ => Except.ok ()
    deleteUser := fun _ => Except.ok () }

def fetchFailFacade : Facade :=
  { okFacade with getUsers := Except.error "network down" }

def mismatchAddState : ViewState :=
  { aliceAddState with
    form := { aliceAddState.form with confirmPassword := "p2" } }

def aliceRecord : UserRecord :=
  { id := 2, username := "alice", role := "user", created_at := none, last_login := none }

def loadingMismatchState : ViewState :=
  { mismatchAddState with loading := true }

/-! ## Helper lemmas -/

/-- Passing validation makes each of the three rejection conditions false. -/
theorem valid_conds (s : ViewState)
    (hu : jsTrim s.form.username ≠ "")
    (hp : s.displayPasswordFields = true →
        s.form.password ≠ "" ∧ s.form.password = s.form.confirmPassword) :
    ¬(jsTrim s.form.username = "")
    ∧ ¬(s.displayPasswordFields = true ∧ s.form.password = "")
    ∧ ¬(s.displayPasswordFields = true ∧ s.form.password ≠ s.form.confirmPassword) := by
  refine ⟨hu, ?_, ?_⟩
  · rintro ⟨hd, hpw⟩
    exact (hp hd).1 hpw
  · rintro ⟨hd, hne⟩
    exact hne (hp hd).2

/-- A submission failing one of the three checks is rejected with a single
error notice, before any facade call; the only state effect is the
`finally` clearing `loading`. -/
theorem submit_rejected_of_invalid (env : Facade) (s : ViewState)
    (h : jsTrim s.form.username = ""
        ∨ (s.displayPasswordFields = true
            ∧ (s.form.password = "" ∨ s.form.password ≠ s.form.confirmPassword))) :
    ∃ m, handleUserFormSubmit env s
        = { state := { s with loading := false }, calls := [],
            notices := [Notice.err m] } := by
  by_cases h1 : jsTrim s.form.username = ""
  · exact ⟨usernameRequiredMsg, by rw [handleUserFormSubmit, if_pos h1]⟩
  · rcases h with h | ⟨hd, hrest⟩
    · exact absurd h h1
    · by_cases h2 : s.form.password = ""
      · exact ⟨passwordRequiredMsg,
          by rw [handleUserFormSubmit, if_neg h1, if_pos ⟨hd, h2⟩]⟩
      · rcases hrest with hrest | hrest
        · exact absurd hrest h2
        · exact ⟨passwordMismatchMsg,
            by rw [handleUserFormSubmit, if_neg h1,
              if_neg (fun hc => h2 hc.2), if_pos ⟨hd, hrest⟩]⟩

/-- A valid edit-mode submission reduces to the update branch. -/
theorem submit_valid_edit (env : Facade) (s : ViewState)
    (hu : jsTrim s.form.username ≠ "")
    (hp : s.displayPasswordFields = true →
        s.form.password ≠ "" ∧ s.form.password = s.form.confirmPassword)
    (he : s.editMode = true) :
    handleUserFormSubmit env s
      = match env.updateUser s.editUserId (updateDataOf s) with
        | Except.ok _ =>
            { state :=
                { (fetchUsers env { s with loading := true }).1 with
                  modalVisible := false, loading := false }
              calls := Call.updateUser s.editUserId (updateDataOf s)
                  :: (fetchUsers env { s with loading := true }).2
              notices := [Notice.success updateSuccessMsg] }
        | Except.error msg =>
            { state := { s with loading := false }
              calls := [Call.updateUser s.editUserId (updateDataOf s)]
              notices := [Notice.errWithDesc opFailMsg (fallbackDesc msg)] } := by
  obtain ⟨h1, h2, h3⟩ := valid_conds s hu hp
  rw [handleUserFormSubmit, if_neg h1, if_neg h2, if_neg h3, if_pos he]

/-- A valid add-mode submission reduces to the create branch. -/
theorem submit_valid_add (env : Facade) (s : ViewState)
    (hu : jsTrim s.form.username ≠ "")
    (hp : s.displayPasswordFields = true →
        s.form.password ≠ "" ∧ s.form.password = s.form.confirmPassword)
    (he : s.editMode = false) :
    handleUserFormSubmit env s
      = match env.createUser (createDataOf s) with
        | Except.ok _ =>
            { state :=
                { (fetchUsers env { s with loading := true }).1 with
                  modalVisible := false, loading := false }
              calls := Call.createUser (createDataOf s)
                  :: (fetchUsers env { s with loading := true }).2
              notices := [Notice.success createSuccessMsg] }
        | Except.error msg =>
            { state := { s with loading := false }
              calls := [Call.createUser (createDataOf s)]
              notices := [Notice.errWithDesc opFailMsg (fallbackDesc msg)] } := by
  obtain ⟨h1, h2, h3⟩ := valid_conds s hu hp
  rw [handleUserFormSubmit, if_neg h1, if_neg h2, if_neg h3,
    if_neg (by rw [he]; exact Bool.false_ne_true)]

/-! ## Claim theorems -/

/-- C4: every run of `fetchUsers` sets `loading` at the point of the facade
list call; on success it replaces `users` with the returned sequence and
clears `error`; on failure it sets `error` to the fixed message and leaves
`users` unchanged; in both cases `loading` is cleared on completion, and the
only facade call performed is the list call. -/
theorem fetchUsers_contract (env : Facade) (s : ViewState) :
    (fetchUsersPending s).loading = true
    ∧ (fetchUsers env s).1.loading = false
    ∧ (fetchUsers env s).2 = [Call.getUsers]
    ∧ (∀ l, env.getUsers = Except.ok l →
        (fetchUsers env s).1.users = l ∧ (fetchUsers env s).1.error = none)
    ∧ (∀ m, env.getUsers = Except.error m →
        (fetchUsers env s).1.users = s.users
        ∧ (fetchUsers env s).1.error = some fetchUsersFailMsg) := by
  cases h : env.getUsers with
  | ok l =>
      refine ⟨rfl, ?_, ?_, ?_, ?_⟩ <;>
        simp [fetchUsers, fetchUsersPending, h]
  | error m =>
      refine ⟨rfl, ?_, ?_, ?_, ?_⟩ <;>
        simp [fetchUsers, fetchUsersPending, h]

theorem fetchUsers_contract_witness :
    (fetchUsers okFacade initialState).1.users = sampleUsers
    ∧ (fetchUsers okFacade initialState).1.error = none :=
  (fetchUsers_contract okFacade initialState).2.2.2.1 sampleUsers rfl

/-- C6: setting `displayPasswordFields` to `false` clears both password
fields; after any run of the watch handler the invariant
"`displayPasswordFields = false` implies empty password fields" holds; and
re-enabling the section from an invariant-satisfying hidden state starts
with blank password fields. -/
theorem watchDisplayPasswordFields_spec (s : ViewState) :
    ((watchDisplayPasswordFields false s).form.password = ""
      ∧ (watchDisplayPasswordFields false s).form.confirmPassword = ""
      ∧ (watchDisplayPasswordFields false s).displayPasswordFields = false)
    ∧ (∀ b, pwFieldsInvariant (watchDisplayPasswordFields b s))
    ∧ (pwFieldsInvariant s → s.displayPasswordFields = false →
        (watchDisplayPasswordFields true s).form.password = ""
        ∧ (watchDisplayPasswordFields true s).form.confirmPassword = "") := by
  refine ⟨⟨rfl, rfl, rfl⟩, ?_, ?_⟩
  · intro b
    cases b <;> simp [watchDisplayPasswordFields, pwFieldsInvariant]
  · intro hinv hoff
    obtain ⟨hpw, hcpw⟩ := hinv hoff
    exact ⟨hpw, hcpw⟩

theorem watchDisplayPasswordFields_spec_witness :
    (watchDisplayPasswordFields true bobEditState).form.password = ""
    ∧ (watchDisplayPasswordFields true bobEditState).form.confirmPassword = "" :=
  (watchDisplayPasswordFields_spec bobEditState).2.2 (by decide) (by decide)

/-- C7: the delete button is disabled exactly when the row is the current
user or the row's role is superadmin while the acting user's role is not. -/
theorem deleteActionDisabled_spec (env : Facade) (record : UserRecord) :
    deleteActionDisabled env record = true
      ↔ (record.id = env.userId
          ∨ (record.role = "superadmin" ∧ env.userRole ≠ "superadmin")) := by
  simp [deleteActionDisabled]

theorem deleteActionDisabled_spec_witness :
    deleteActionDisabled { okFacade with userRole := "admin", userId := 5 }
      { id := 1, username := "root", role := "superadmin",
        created_at := none, last_login := none } = true :=
  (deleteActionDisabled_spec { okFacade with userRole := "admin", userId := 5 }
    { id := 1, username := "root", role := "superadmin",
      created_at := none, last_login := none }).mpr (Or.inr ⟨rfl, by decide⟩)

/-- C9 counterexample: the role-label helper does not map `superadmin` to
the English string "Super Admin"; it returns the Chinese label. -/
theorem getRoleLabel_superadmin_not_english :
    getRoleLabel "superadmin" ≠ "Super Admin" := by decide

/-- C9 (amended): the role-to-display-label helper is a pure function
mapping `superadmin` to "超级管理员", `admin` to "管理员", `user` to
"普通用户", and echoing any unknown role string verbatim. -/
theorem getRoleLabel_spec :
    getRoleLabel "superadmin" = "超级管理员"
    ∧ getRoleLabel "admin" = "管理员"
    ∧ getRoleLabel "user" = "普通用户"
    ∧ ∀ role, role ≠ "superadmin" → role ≠ "admin" → role ≠ "user" →
        getRoleLabel role = role := by
  refine ⟨by decide, by decide, by decide, ?_⟩
  intro role h1 h2 h3
  rw [getRoleLabel, if_neg h1, if_neg h2, if_neg h3]

theorem getRoleLabel_spec_witness : getRoleLabel "guest" = "guest" :=
  getRoleLabel_spec.2.2.2 "guest" (by decide) (by decide) (by decide)

/-- C2: submission validation runs the three checks in order and
short-circuits on the first failure — trimmed-username non-empty, then
(when the password section is shown) password non-empty, then password
equal to confirmPassword — each failure producing only its own error notice
and no facade call (the `finally` clears `loading` on these early returns),
so neither create nor update is ever called on a validation failure. -/
theorem handleUserFormSubmit_validation (env : Facade) (s : ViewState) :
    (jsTrim s.form.username = "" →
        handleUserFormSubmit env s
          = { state := { s with loading := false }, calls := [],
              notices := [Notice.err usernameRequiredMsg] })
    ∧ (jsTrim s.form.username ≠ "" → s.displayPasswordFields = true →
        s.form.password = "" →
        handleUserFormSubmit env s
          = { state := { s with loading := false }, calls := [],
              notices := [Notice.err passwordRequiredMsg] })
    ∧ (jsTrim s.form.username ≠ "" → s.displayPasswordFields = true →
        s.form.password ≠ "" → s.form.password ≠ s.form.confirmPassword →
        handleUserFormSubmit env s
          = { state := { s with loading := false }, calls := [],
              notices := [Notice.err passwordMismatchMsg] })
    ∧ ((jsTrim s.form.username = ""
        ∨ (s.displayPasswordFields = true
            ∧ (s.form.password = "" ∨ s.form.password ≠ s.form.confirmPassword))) →
        (handleUserFormSubmit env s).calls = []) := by
  refine ⟨?_, ?_, ?_, ?_⟩
  · intro h1
    rw [handleUserFormSubmit, if_pos h1]
  · intro h1 hd h2
    rw [handleUserFormSubmit, if_neg h1, if_pos ⟨hd, h2⟩]
  · intro h1 hd h2 h3
    rw [handleUserFormSubmit, if_neg h1, if_neg (fun hc => h2 hc.2), if_pos ⟨hd, h3⟩]
  · intro h
    obtain ⟨m, hm⟩ := submit_rejected_of_invalid env s h
    rw [hm]

theorem handleUserFormSubmit_validation_witness :
    handleUserFormSubmit okFacade mismatchAddState
      = { state := { mismatchAddState with loading := false }, calls := [],
          notices := [Notice.err passwordMismatchMsg] } :=
  (handleUserFormSubmit_validation okFacade mismatchAddState).2.2.1
    (by decide) (by decide) (by decide) (by decide)

/-- C8 counterexample: a mismatched-password submission entered while
`loading = true` does not leave `loading` unchanged — the handler's
`finally` clears it even on the early validation return, so the state is
not preserved as the claim asserts. -/
theorem validationClearsLoading :
    (handleUserFormSubmit okFacade loadingMismatchState).state.loading
        ≠ loadingMismatchState.loading
    ∧ (handleUserFormSubmit okFacade loadingMismatchState).state
        ≠ loadingMismatchState := by decide

/-- C8 (amended): a submission that fails validation returns before any
facade call, leaves `error`, `users` and `modalVisible` unchanged and never
touches the `error` state; its only state effect is the `finally` clearing
`loading` to `false` (so `loading` is unchanged exactly when it was already
`false`); no call is made and the only output is one transient error
notice. -/
theorem handleUserFormSubmit_validationFrame (env : Facade) (s : ViewState)
    (h : jsTrim s.form.username = ""
        ∨ (s.displayPasswordFields = true
            ∧ (s.form.password = "" ∨ s.form.password ≠ s.form.confirmPassword))) :
    (handleUserFormSubmit env s).state = { s with loading := false }
    ∧ (handleUserFormSubmit env s).state.loading = false
    ∧ (handleUserFormSubmit env s).state.error = s.error
    ∧ (handleUserFormSubmit env s).state.users = s.users
    ∧ (handleUserFormSubmit env s).state.modalVisible = s.modalVisible
    ∧ (handleUserFormSubmit env s).calls = []
    ∧ ∃ m, (handleUserFormSubmit env s).notices = [Notice.err m] := by
  obtain ⟨m, hm⟩ := submit_rejected_of_invalid env s h
  rw [hm]
  exact ⟨rfl, rfl, rfl, rfl, rfl, rfl, m, rfl⟩

theorem handleUserFormSubmit_validationFrame_witness :
    (handleUserFormSubmit okFacade loadingMismatchState).state
        = { loadingMismatchState with loading := false }
    ∧ (handleUserFormSubmit okFacade loadingMismatchState).calls = [] := by
  obtain ⟨h1, _, _, _, _, h6, _⟩ :=
    handleUserFormSubmit_validationFrame okFacade loadingMismatchState (by decide)
  exact ⟨h1, h6⟩

/-- C3: a validation-passing edit-mode submission passes to the facade's
update operation a payload consisting of exactly the trimmed username and
the role, plus a password field iff the password section is shown and the
password is non-empty; with the section hidden the payload has no password
key. -/
theorem updatePayload_spec (env : Facade) (s : ViewState)
    (hu : jsTrim s.form.username ≠ "")
    (hp : s.displayPasswordFields = true →
        s.form.password ≠ "" ∧ s.form.password = s.form.confirmPassword)
    (he : s.editMode = true) :
    (handleUserFormSubmit env s).calls.head?
      = some (Call.updateUser s.editUserId (updateDataOf s))
    ∧ (updateDataOf s).username = jsTrim s.form.username
    ∧ (updateDataOf s).role = s.form.role
    ∧ ((updateDataOf s).password
        = if s.displayPasswordFields = true ∧ s.form.password ≠ "" then
            some s.form.password
          else none)
    ∧ (s.displayPasswordFields = false → (updateDataOf s).password = none) := by
  rw [submit_valid_edit env s hu hp he]
  refine ⟨?_, rfl, rfl, rfl, ?_⟩
  · cases henv : env.updateUser s.editUserId (updateDataOf s) <;> rfl
  · intro hoff
    rw [updateDataOf]
    simp [hoff]

theorem updatePayload_spec_witness :
    (handleUserFormSubmit okFacade bobEditState).calls.head?
      = some (Call.updateUser bobEditState.editUserId (updateDataOf bobEditState))
    ∧ (updateDataOf bobEditState).password = none := by
  obtain ⟨h1, _, _, _, h5⟩ :=
    updatePayload_spec okFacade bobEditState (by decide) (by decide) (by decide)
  exact ⟨h1, h5 (by decide)⟩

/-- C1 (code bug): the self-delete guard alone behaves as the claim says —
the concrete self target is rejected with the fixed error notice, no prompt
and no facade call.  But on the concrete non-self target alice the handler
throws a TypeError at `modal.confirm` (ant-design-vue's `notification` has
no `modal` member): no confirmation prompt is shown, no facade call is
made, no notification fires, and the confirm-then-delete flow the claim
(and the spec) describe is unreachable. -/
theorem confirmDeleteUser_crashes :
    (confirmDeleteUser okFacade aliceRecord initialState).threw = true
    ∧ (confirmDeleteUser okFacade aliceRecord initialState).prompt = none
    ∧ (confirmDeleteUser okFacade aliceRecord initialState).calls = []
    ∧ (confirmDeleteUser okFacade aliceRecord initialState).notices = []
    ∧ confirmDeleteUser okFacade
        { aliceRecord with id := okFacade.userId } initialState
        = { state := initialState, calls := [],
            notices := [Notice.err selfDeleteMsg], prompt := none,
            threw := false } := by decide

/-- C5 (code bug at the delete leg): at mount the component performs
exactly the list call; a successful edit submission performs the update
call followed by the list refetch whose result becomes the rendered list,
and a successful add submission performs the create call followed by the
same refetch.  But clicking delete on the non-self row alice performs no
facade call at all — the handler throws at `modal.confirm` — so `deleteUser`
can never succeed through this component and the delete-then-refetch leg of
the claim is unreachable. -/
theorem refetchAfterMutation_concrete :
    (onMountedHandler okFacade initialState).2 = [Call.getUsers]
    ∧ (handleUserFormSubmit okFacade bobEditState).calls
        = [Call.updateUser bobEditState.editUserId (updateDataOf bobEditState),
           Call.getUsers]
    ∧ (handleUserFormSubmit okFacade bobEditState).state.users = sampleUsers
    ∧ (handleUserFormSubmit okFacade aliceAddState).calls
        = [Call.createUser (createDataOf aliceAddState), Call.getUsers]
    ∧ (handleUserFormSubmit okFacade aliceAddState).state.users = sampleUsers
    ∧ (confirmDeleteUser okFacade aliceRecord initialState).calls = []
    ∧ (confirmDeleteUser okFacade aliceRecord initialState).threw = true := by
  decide

/-- C10: `fetchUsers` catches all of its failures internally (it is a total
transition), so a submission whose facade create/update call succeeds fires
the success notification and closes the modal even when the subsequent list
re-fetch fails; the failed re-fetch sets the list-error message but never
reaches the submit handler's error branch (the success notice is the only
notification). -/
theorem submitSuccessDespiteRefetchFailure (env : Facade) (s : ViewState)
    (m : String)
    (hfetch : env.getUsers = Except.error m)
    (hu : jsTrim s.form.username ≠ "")
    (hp : s.displayPasswordFields = true →
        s.form.password ≠ "" ∧ s.form.password = s.form.confirmPassword)
    (hupd : s.editMode = true →
        env.updateUser s.editUserId (updateDataOf s) = Except.ok ())
    (hcre : s.editMode = false →
        env.createUser (createDataOf s) = Except.ok ()) :
    (handleUserFormSubmit env s).state.modalVisible = false
    ∧ (handleUserFormSubmit env s).notices
        = [Notice.success
            (if s.editMode = true then updateSuccessMsg else createSuccessMsg)]
    ∧ (handleUserFormSubmit env s).state.error = some fetchUsersFailMsg := by
  cases he : s.editMode with
  | true =>
      rw [submit_valid_edit env s hu hp he, hupd he]
      refine ⟨rfl, by simp [he], ?_⟩
      simp [fetchUsers, fetchUsersPending, hfetch]
  | false =>
      rw [submit_valid_add env s hu hp he, hcre he]
      refine ⟨rfl, by simp [he], ?_⟩
      simp [fetchUsers, fetchUsersPending, hfetch]

theorem submitSuccessDespiteRefetchFailure_witness :
    (handleUserFormSubmit fetchFailFacade bobEditState).state.modalVisible = false
    ∧ (handleUserFormSubmit fetchFailFacade bobEditState).notices
        = [Notice.success
            (if bobEditState.editMode = true then updateSuccessMsg
             else createSuccessMsg)]
    ∧ (handleUserFormSubmit fetchFailFacade bobEditState).state.error
        = some fetchUsersFailMsg :=
  submitSuccessDespiteRefetchFailure fetchFailFacade bobEditState "network down"
    rfl (by decide) (by decide) (fun _ => rfl) (fun _ => rfl)

end UserManagement
